import Mathlib

/-!
# WebRTC signaling / transport state machine — verification development

The repository under study is a declaration-only TypeScript API surface for
WebRTC (`RTCPeerConnection`, ICE/DTLS transports, candidates).  It declares
the enums and interfaces of the negotiation state machine but contains no
executable logic; the accompanying design document specifies the state
machine those declarations describe.  The definitions below embed that
state machine: enum declarations are translated directly from the source
file, and the operations (`setLocalDescription`, `setRemoteDescription`,
`addIceCandidate`, `close`, the transport machines) are modelled from the
specification text, since their bodies do not exist in the repository.
-/

namespace WebRTC

/-- Translated from the source `enum RTCSdpType`:
offer, pranswer, answer, rollback. -/
inductive RTCSdpType where
  | offer
  | pranswer
  | answer
  | rollback
deriving DecidableEq, Repr

/-- Translated from the source `enum RTCSignalingState`:
stable, have-local-offer, have-remote-offer, have-local-pranswer,
have-remote-pranswer, closed. -/
inductive RTCSignalingState where
  | stable
  | haveLocalOffer
  | haveRemoteOffer
  | haveLocalPranswer
  | haveRemotePranswer
  | closed
deriving DecidableEq, Repr

/-- The side on which a session description is applied:
`setLocalDescription` applies on the local side, `setRemoteDescription`
on the remote side. -/
inductive Side where
  | localSide
  | remoteSide
deriving DecidableEq, Repr

/-- Translated from the source `interface RTCSessionDescriptionInit` /
`class RTCSessionDescription`: `{ type: RTCSdpType; sdp?: string }`. -/
structure RTCSessionDescription where
  type : RTCSdpType
  sdp : Option String
deriving DecidableEq, Repr

/-- Modelled from the spec: the error taxonomy of the design document
(`InvalidStateError`, `OperationError`, `NetworkFailure`,
`NotSupportedError`). -/
inductive RTCError where
  | invalidStateError
  | operationError
  | networkFailure
  | notSupportedError
deriving DecidableEq, Repr

/-- Translated from the source `enum RTCIceProtocol`: udp, tcp. -/
inductive RTCIceProtocol where
  | udp
  | tcp
deriving DecidableEq, Repr

/-- Translated from the source `enum RTCIceTcpCandidateType`:
active, passive, so. -/
inductive RTCIceTcpCandidateType where
  | active
  | passive
  | so
deriving DecidableEq, Repr

/-- Translated from the source `enum RTCIceCandidateType`:
host, srflx, prflx, relay. -/
inductive RTCIceCandidateType where
  | host
  | srflx
  | prflx
  | relay
deriving DecidableEq, Repr

/-- Translated from the source `interface RTCIceCandidate`; optional
members become `Option`. -/
structure RTCIceCandidate where
  candidate : String
  sdpMid : Option String
  sdpMLineIndex : Option Nat
  foundation : Option String
  priority : Option Nat
  ip : Option String
  protocol : Option RTCIceProtocol
  port : Option Nat
  type : Option RTCIceCandidateType
  tcpType : Option RTCIceTcpCandidateType
  relatedAddress : Option String
  relatedPort : Option Nat
deriving DecidableEq, Repr

/-- Modelled from the spec: the mutable state of a peer connection's
SignalingCoordinator — the signaling state, the four description slots
(current/pending × local/remote), and the remote candidates supplied via
`addIceCandidate`.  The repository only declares these attributes. -/
structure PCState where
  signalingState : RTCSignalingState
  currentLocalDescription : Option RTCSessionDescription
  pendingLocalDescription : Option RTCSessionDescription
  currentRemoteDescription : Option RTCSessionDescription
  pendingRemoteDescription : Option RTCSessionDescription
  remoteCandidates : List (String × Option String × Option Nat)
deriving DecidableEq, Repr

/-- Modelled from the spec: the initial state — `stable` is "the initial
state in which case the local and remote descriptions are empty". -/
def initialState : PCState :=
  { signalingState := .stable
    currentLocalDescription := none
    pendingLocalDescription := none
    currentRemoteDescription := none
    pendingRemoteDescription := none
    remoteCandidates := [] }

/-- Translated from the source doc comment: "The localDescription attribute
must return pendingLocalDescription if it is not null and otherwise it must
return currentLocalDescription." -/
def localDescription (s : PCState) : Option RTCSessionDescription :=
  match s.pendingLocalDescription with
  | some d => some d
  | none => s.currentLocalDescription

/-- Translated from the source doc comment: "The remoteDescription attribute
must return pendingRemoteDescription if it is not null and otherwise it must
return currentRemoteDescription." -/
def remoteDescription (s : PCState) : Option RTCSessionDescription :=
  match s.pendingRemoteDescription with
  | some d => some d
  | none => s.currentRemoteDescription

/-- Modelled from the spec: rollback cancels the current negotiation and
moves back to the previous stable state; the pending slots are cleared and
the current slots (the previous stable descriptions) are kept. -/
def rollbackState (s : PCState) : PCState :=
  { s with signalingState := .stable
           pendingLocalDescription := none
           pendingRemoteDescription := none }

/-- Modelled from the spec: `setLocalDescription(desc)` — the repository
declares only its signature.  Validates `desc.type` against the current
signaling state (offer only from stable/have-local-offer; answer only from
have-remote-offer/have-local-pranswer; pranswer likewise; rollback from any
non-stable live state), updates the description slots, and transitions per
the table; any other combination fails with `InvalidStateError`. -/
def setLocalDescription (s : PCState) (d : RTCSessionDescription) :
    Except RTCError PCState :=
  match s.signalingState, d.type with
  | .stable, .offer =>
      .ok { s with signalingState := .haveLocalOffer
                   pendingLocalDescription := some d }
  | .haveLocalOffer, .offer =>
      .ok { s with signalingState := .haveLocalOffer
                   pendingLocalDescription := some d }
  | .haveRemoteOffer, .answer =>
      .ok { s with signalingState := .stable
                   currentLocalDescription := some d
                   currentRemoteDescription := s.pendingRemoteDescription
                   pendingLocalDescription := none
                   pendingRemoteDescription := none }
  | .haveLocalPranswer, .answer =>
      .ok { s with signalingState := .stable
                   currentLocalDescription := some d
                   currentRemoteDescription := s.pendingRemoteDescription
                   pendingLocalDescription := none
                   pendingRemoteDescription := none }
  | .haveRemoteOffer, .pranswer =>
      .ok { s with signalingState := .haveLocalPranswer
                   pendingLocalDescription := some d }
  | .haveLocalPranswer, .pranswer =>
      .ok { s with signalingState := .haveLocalPranswer
                   pendingLocalDescription := some d }
  | .haveLocalOffer, .rollback => .ok (rollbackState s)
  | .haveRemoteOffer, .rollback => .ok (rollbackState s)
  | .haveLocalPranswer, .rollback => .ok (rollbackState s)
  | .haveRemotePranswer, .rollback => .ok (rollbackState s)
  | _, _ => .error .invalidStateError

/-- Modelled from the spec: `setRemoteDescription(desc)` — "symmetric,
mirrored transitions for remote-originated descriptions". -/
def setRemoteDescription (s : PCState) (d : RTCSessionDescription) :
    Except RTCError PCState :=
  match s.signalingState, d.type with
  | .stable, .offer =>
      .ok { s with signalingState := .haveRemoteOffer
                   pendingRemoteDescription := some d }
  | .haveRemoteOffer, .offer =>
      .ok { s with signalingState := .haveRemoteOffer
                   pendingRemoteDescription := some d }
  | .haveLocalOffer, .answer =>
      .ok { s with signalingState := .stable
                   currentRemoteDescription := some d
                   currentLocalDescription := s.pendingLocalDescription
                   pendingLocalDescription := none
                   pendingRemoteDescription := none }
  | .haveRemotePranswer, .answer =>
      .ok { s with signalingState := .stable
                   currentRemoteDescription := some d
                   currentLocalDescription := s.pendingLocalDescription
                   pendingLocalDescription := none
                   pendingRemoteDescription := none }
  | .haveLocalOffer, .pranswer =>
      .ok { s with signalingState := .haveRemotePranswer
                   pendingRemoteDescription := some d }
  | .haveRemotePranswer, .pranswer =>
      .ok { s with signalingState := .haveRemotePranswer
                   pendingRemoteDescription := some d }
  | .haveLocalOffer, .rollback => .ok (rollbackState s)
  | .haveRemoteOffer, .rollback => .ok (rollbackState s)
  | .haveLocalPranswer, .rollback => .ok (rollbackState s)
  | .haveRemotePranswer, .rollback => .ok (rollbackState s)
  | _, _ => .error .invalidStateError

/-- Applying a description on either side. -/
def applyDescription (s : PCState) (side : Side) (d : RTCSessionDescription) :
    Except RTCError PCState :=
  match side with
  | .localSide => setLocalDescription s d
  | .remoteSide => setRemoteDescription s d

/-- Modelled from the spec: the signaling transition table, a relation keyed
by (current state, applied side, sdp type) → next state; combinations not in
the table are failures. -/
def transitionTable (st : RTCSignalingState) (side : Side) (t : RTCSdpType) :
    Option RTCSignalingState :=
  match st, side, t with
  | .stable, .localSide, .offer => some .haveLocalOffer
  | .haveLocalOffer, .localSide, .offer => some .haveLocalOffer
  | .haveRemoteOffer, .localSide, .answer => some .stable
  | .haveLocalPranswer, .localSide, .answer => some .stable
  | .haveRemoteOffer, .localSide, .pranswer => some .haveLocalPranswer
  | .haveLocalPranswer, .localSide, .pranswer => some .haveLocalPranswer
  | .haveLocalOffer, .localSide, .rollback => some .stable
  | .haveRemoteOffer, .localSide, .rollback => some .stable
  | .haveLocalPranswer, .localSide, .rollback => some .stable
  | .haveRemotePranswer, .localSide, .rollback => some .stable
  | .stable, .remoteSide, .offer => some .haveRemoteOffer
  | .haveRemoteOffer, .remoteSide, .offer => some .haveRemoteOffer
  | .haveLocalOffer, .remoteSide, .answer => some .stable
  | .haveRemotePranswer, .remoteSide, .answer => some .stable
  | .haveLocalOffer, .remoteSide, .pranswer => some .haveRemotePranswer
  | .haveRemotePranswer, .remoteSide, .pranswer => some .haveRemotePranswer
  | .haveLocalOffer, .remoteSide, .rollback => some .stable
  | .haveRemoteOffer, .remoteSide, .rollback => some .stable
  | .haveLocalPranswer, .remoteSide, .rollback => some .stable
  | .haveRemotePranswer, .remoteSide, .rollback => some .stable
  | _, _, _ => none

/-- Modelled from the source `close()` doc comment: if the signaling state
is already closed, abort; otherwise set it to closed (ICE-agent destruction
is delegated and outside this model). -/
def close (s : PCState) : PCState :=
  if s.signalingState = .closed then s
  else { s with signalingState := .closed }

/-- Modelled from the source `addIceCandidate` doc comment: "The only
members of the candidate attribute used by this method are candidate,
sdpMid and sdpMLineIndex; the rest are ignored."  The candidate triple is
added to the remote candidates; in the closed state candidate operations
fail. -/
def addIceCandidate (s : PCState) (c : RTCIceCandidate) :
    Except RTCError PCState :=
  if s.signalingState = .closed then .error .invalidStateError
  else
    .ok { s with remoteCandidates :=
            s.remoteCandidates ++ [(c.candidate, c.sdpMid, c.sdpMLineIndex)] }

/-- Modelled from the spec: the states reachable from the initial state by
the serialized operation sequence (description application on either side,
candidate addition, close). -/
inductive Reachable : PCState → Prop where
  | init : Reachable initialState
  | applyDesc {s s' : PCState} {side : Side} {d : RTCSessionDescription} :
      Reachable s → applyDescription s side d = .ok s' → Reachable s'
  | addCand {s s' : PCState} {c : RTCIceCandidate} :
      Reachable s → addIceCandidate s c = .ok s' → Reachable s'
  | closeStep {s : PCState} : Reachable s → Reachable (close s)

/-- Translated from the source `enum RTCPeerConnectionState`:
new, connecting, connected, disconnected, failed. -/
inductive RTCPeerConnectionState where
  | new
  | connecting
  | connected
  | disconnected
  | failed
deriving DecidableEq, Repr

/-- The state of a single transport (ICE or DTLS) as consumed by the
aggregate reducer.  The source `RTCPeerConnectionState` doc comments speak
of the union of the RTCIceTransport states (new, checking, connected,
completed, failed, disconnected, closed) and the RTCDtlsTransport states
(new, connecting, connected, closed, failed). -/
inductive TransportState where
  | new
  | checking
  | connecting
  | connected
  | completed
  | disconnected
  | failed
  | closed
deriving DecidableEq, Repr

/-- Modelled from the spec (AggregateStateReducer) and the source
`RTCPeerConnectionState` doc comments: the pure function from the collection
of per-transport states to the peer-connection aggregate — `failed` if any
transport failed; else `disconnected` if any disconnected and none
connecting/checking; else `connecting` if any connecting/checking; else
`connected` if all are connected/completed/closed and at least one is
connected/completed; else `new`. -/
def connectionStateOf (ts : List TransportState) : RTCPeerConnectionState :=
  if TransportState.failed ∈ ts then .failed
  else if TransportState.disconnected ∈ ts ∧ TransportState.connecting ∉ ts ∧
      TransportState.checking ∉ ts then .disconnected
  else if TransportState.connecting ∈ ts ∨ TransportState.checking ∈ ts then
    .connecting
  else if (∀ t ∈ ts, t = TransportState.connected ∨ t = TransportState.completed ∨
      t = TransportState.closed) ∧
      (TransportState.connected ∈ ts ∨ TransportState.completed ∈ ts) then
    .connected
  else .new

/-- Translated from the source `enum RTCIceConnectionState` (also the
`state` attribute type of `interface RTCIceTransport`): new, checking,
connected, completed, failed, disconnected, closed. -/
inductive RTCIceConnectionState where
  | new
  | checking
  | connected
  | completed
  | failed
  | disconnected
  | closed
deriving DecidableEq, Repr

/-- Translated from the source `enum RTCDtlsTransportState`:
new, connecting, connected, closed, failed. -/
inductive RTCDtlsTransportState where
  | new
  | connecting
  | connected
  | closed
  | failed
deriving DecidableEq, Repr

/-- A DTLS transport together with its underlying ICE transport
(`RTCDtlsTransport.transport`). -/
structure TransportPair where
  ice : RTCIceConnectionState
  dtls : RTCDtlsTransportState
deriving DecidableEq, Repr

/-- Modelled from the spec: the transitions of a DTLS transport layered on
its underlying ICE transport.  The ICE side follows the IceAgent design
(checks begin, a usable connection is found, checking finishes, liveness
checks may fail transiently — `disconnected` "may trigger intermittently
(and resolve itself without action) on a flaky network" — or terminally).
The DTLS side starts negotiating, "cannot reach connected while its ICE
transport is not itself connected/completed", and may fail (certificate
validation) or close at any time. -/
inductive TransportStep : TransportPair → TransportPair → Prop where
  | iceCheck {d : RTCDtlsTransportState} :
      TransportStep ⟨.new, d⟩ ⟨.checking, d⟩
  | iceConnect {d : RTCDtlsTransportState} :
      TransportStep ⟨.checking, d⟩ ⟨.connected, d⟩
  | iceComplete {d : RTCDtlsTransportState} :
      TransportStep ⟨.connected, d⟩ ⟨.completed, d⟩
  | iceDisconnect {i : RTCIceConnectionState} {d : RTCDtlsTransportState} :
      (i = .connected ∨ i = .completed) → TransportStep ⟨i, d⟩ ⟨.disconnected, d⟩
  | iceRecover {d : RTCDtlsTransportState} :
      TransportStep ⟨.disconnected, d⟩ ⟨.connected, d⟩
  | iceFail {i : RTCIceConnectionState} {d : RTCDtlsTransportState} :
      (i = .checking ∨ i = .disconnected) → TransportStep ⟨i, d⟩ ⟨.failed, d⟩
  | iceClose {i : RTCIceConnectionState} {d : RTCDtlsTransportState} :
      TransportStep ⟨i, d⟩ ⟨.closed, d⟩
  | dtlsStart {i : RTCIceConnectionState} :
      TransportStep ⟨i, .new⟩ ⟨i, .connecting⟩
  | dtlsConnect {i : RTCIceConnectionState} :
      (i = .connected ∨ i = .completed) →
      TransportStep ⟨i, .connecting⟩ ⟨i, .connected⟩
  | dtlsFail {i : RTCIceConnectionState} {d : RTCDtlsTransportState} :
      TransportStep ⟨i, d⟩ ⟨i, .failed⟩
  | dtlsClose {i : RTCIceConnectionState} {d : RTCDtlsTransportState} :
      TransportStep ⟨i, d⟩ ⟨i, .closed⟩

/-- Transport pairs reachable from the fresh `(new, new)` pair. -/
def TransportReachable (p : TransportPair) : Prop :=
  Relation.ReflTransGen TransportStep ⟨.new, .new⟩ p

/-- Translated from the source `enum RTCIceGatheringState`:
new, gathering, complete. -/
inductive RTCIceGatheringState where
  | new
  | gathering
  | complete
deriving DecidableEq, Repr

/-- Modelled from the spec: the events driving the IceAgent gathering
state — gathering begins, gathering finishes, and "adding a new candidate
source (new network interface, new TURN server)". -/
inductive GatheringEvent where
  | startGathering
  | gatheringDone
  | addCandidateSource
deriving DecidableEq, Repr

/-- Modelled from the spec: the IceAgent gathering-state machine —
monotonically advances new → gathering → complete, except that adding a
new candidate source while complete regresses the state to gathering
(adding one while still gathering keeps it gathering). -/
inductive GatheringStep :
    RTCIceGatheringState → GatheringEvent → RTCIceGatheringState → Prop where
  | start : GatheringStep .new .startGathering .gathering
  | done : GatheringStep .gathering .gatheringDone .complete
  | addWhileGathering : GatheringStep .gathering .addCandidateSource .gathering
  | regress : GatheringStep .complete .addCandidateSource .gathering

/-- The progress rank of a gathering state: new < gathering < complete. -/
def gatheringRank : RTCIceGatheringState → Nat
  | .new => 0
  | .gathering => 1
  | .complete => 2

/-! ## Theorems -/

/-- C1: for every signaling state, side and description type, applying a
description either transitions to exactly the next state given by the
transition table, or fails with `InvalidStateError` (leaving the state
unchanged, since a failing operation returns no new state); no other
outcome — in particular no silent no-op — is possible. -/
theorem C1_set_description_follows_table (s : PCState) (side : Side)
    (d : RTCSessionDescription) :
    (∀ next, transitionTable s.signalingState side d.type = some next →
      ∃ s', applyDescription s side d = .ok s' ∧ s'.signalingState = next) ∧
    (transitionTable s.signalingState side d.type = none →
      applyDescription s side d = .error .invalidStateError) := by
  cases side <;> cases hs : s.signalingState <;> cases hd : d.type <;>
    simp [transitionTable, applyDescription, setLocalDescription,
      setRemoteDescription, rollbackState, hs, hd]

/-- Witness for C1 at concrete inputs: a local offer from the initial
(stable) state succeeds into have-local-offer, and a local answer from the
initial state is rejected with `InvalidStateError`. -/
theorem C1_set_description_follows_table_witness :
    (∃ s', applyDescription initialState .localSide ⟨.offer, none⟩ = .ok s' ∧
      s'.signalingState = .haveLocalOffer) ∧
    applyDescription initialState .localSide ⟨.answer, none⟩ =
      .error .invalidStateError :=
  ⟨(C1_set_description_follows_table initialState .localSide
      ⟨.offer, none⟩).1 .haveLocalOffer (by decide),
   (C1_set_description_follows_table initialState .localSide
      ⟨.answer, none⟩).2 (by decide)⟩

/-- C2: in every reachable state, `localDescription` equals
`pendingLocalDescription` whenever the latter is non-null and otherwise
equals `currentLocalDescription`; symmetrically for the remote side. -/
theorem C2_description_attributes (s : PCState) (h : Reachable s) :
    (s.pendingLocalDescription ≠ none →
      localDescription s = s.pendingLocalDescription) ∧
    (s.pendingLocalDescription = none →
      localDescription s = s.currentLocalDescription) ∧
    (s.pendingRemoteDescription ≠ none →
      remoteDescription s = s.pendingRemoteDescription) ∧
    (s.pendingRemoteDescription = none →
      remoteDescription s = s.currentRemoteDescription) := by
  rcases hp : s.pendingLocalDescription with _ | d <;>
    rcases hq : s.pendingRemoteDescription with _ | e <;>
      simp [localDescription, remoteDescription, hp, hq]

/-- Witness for C2 at the initial state. -/
theorem C2_description_attributes_witness :
    (initialState.pendingLocalDescription ≠ none →
      localDescription initialState = initialState.pendingLocalDescription) ∧
    (initialState.pendingLocalDescription = none →
      localDescription initialState = initialState.currentLocalDescription) ∧
    (initialState.pendingRemoteDescription ≠ none →
      remoteDescription initialState = initialState.pendingRemoteDescription) ∧
    (initialState.pendingRemoteDescription = none →
      remoteDescription initialState = initialState.currentRemoteDescription) :=
  C2_description_attributes initialState Reachable.init

/-- C3: the aggregate connection state is a pure function of the multiset
of per-transport states (permuting the transports does not change it), any
failed transport makes the aggregate `failed`, and in particular the
multiset {connected, failed} aggregates to `failed`. -/
theorem C3_aggregate_of_multiset (l1 l2 ts : List TransportState)
    (h : l1.Perm l2) :
    connectionStateOf l1 = connectionStateOf l2 ∧
    (TransportState.failed ∈ ts → connectionStateOf ts = .failed) ∧
    connectionStateOf [.connected, .failed] = .failed := by
  refine ⟨?_, ?_, by decide⟩
  · simp only [connectionStateOf, h.mem_iff]
  · intro hf; simp [connectionStateOf, hf]

/-- Witness for C3: the two orderings of {connected, failed} aggregate
identically, and that aggregate is `failed`. -/
theorem C3_aggregate_of_multiset_witness :
    connectionStateOf [TransportState.connected, TransportState.failed] =
      connectionStateOf [TransportState.failed, TransportState.connected] ∧
    connectionStateOf [TransportState.connected, TransportState.failed] =
      RTCPeerConnectionState.failed :=
  ⟨(C3_aggregate_of_multiset [.connected, .failed] [.failed, .connected]
      [.connected, .failed] (List.Perm.swap _ _ _)).1,
   (C3_aggregate_of_multiset [.connected, .failed] [.failed, .connected]
      [.connected, .failed] (List.Perm.swap _ _ _)).2.1 (by decide)⟩

/-- C4: `close()` is idempotent — closing twice yields exactly the state of
a single close, and the state after close has signaling state `closed`. -/
theorem C4_close_idempotent (s : PCState) :
    close (close s) = close s ∧ (close s).signalingState = .closed := by
  by_cases h : s.signalingState = .closed <;> simp [close, h]

/-- C5: `closed` is terminal — from any state whose signaling state is
closed, applying a description on either side fails with
`InvalidStateError`, adding an ICE candidate fails with
`InvalidStateError`, and `close()` is a no-op; no operation leaves the
closed state. -/
theorem C5_closed_terminal (s : PCState) (side : Side)
    (d : RTCSessionDescription) (c : RTCIceCandidate)
    (h : s.signalingState = .closed) :
    applyDescription s side d = .error .invalidStateError ∧
    addIceCandidate s c = .error .invalidStateError ∧
    close s = s := by
  cases side <;> cases hd : d.type <;>
    simp [applyDescription, setLocalDescription, setRemoteDescription,
      addIceCandidate, close, h, hd]

/-- Witness for C5 at the closed state reached from the initial state. -/
theorem C5_closed_terminal_witness :
    applyDescription (close initialState) .localSide ⟨.offer, none⟩ =
      .error .invalidStateError ∧
    addIceCandidate (close initialState)
      ⟨"candidate:1", none, none, none, none, none, none, none, none, none,
        none, none⟩ = .error .invalidStateError ∧
    close (close initialState) = close initialState :=
  C5_closed_terminal (close initialState) .localSide ⟨.offer, none⟩
    ⟨"candidate:1", none, none, none, none, none, none, none, none, none,
      none, none⟩ (by decide)

/-- C6 counterexample: the claim "rollback is accepted from any non-stable
state" fails at the closed state (which is not stable): there,
`setLocalDescription` of a rollback is rejected with `InvalidStateError`. -/
theorem C6_rollback_counterexample :
    Reachable (close initialState) ∧
    (close initialState).signalingState ≠ .stable ∧
    setLocalDescription (close initialState) ⟨.rollback, none⟩ =
      .error .invalidStateError :=
  ⟨Reachable.closeStep Reachable.init, by decide, rfl⟩

/-- C6 (amended): from have-remote-offer — and more generally from any
non-stable state other than closed — applying a rollback on either side
succeeds, transitions the signaling state to stable, clears both pending
descriptions (in particular `pendingRemoteDescription`), and keeps the
current descriptions of the previous stable state. -/
theorem C6_rollback_to_stable (s : PCState) (side : Side)
    (d : RTCSessionDescription) (ht : d.type = .rollback)
    (h1 : s.signalingState ≠ .stable) (h2 : s.signalingState ≠ .closed) :
    ∃ s', applyDescription s side d = .ok s' ∧
      s'.signalingState = .stable ∧
      s'.pendingRemoteDescription = none ∧
      s'.pendingLocalDescription = none ∧
      s'.currentLocalDescription = s.currentLocalDescription ∧
      s'.currentRemoteDescription = s.currentRemoteDescription := by
  cases side <;> cases hs : s.signalingState <;>
    simp_all [applyDescription, setLocalDescription, setRemoteDescription,
      rollbackState]

/-- Witness for C6 at a concrete have-remote-offer state. -/
theorem C6_rollback_to_stable_witness :
    ∃ s', applyDescription
      { signalingState := .haveRemoteOffer
        currentLocalDescription := none
        pendingLocalDescription := none
        currentRemoteDescription := none
        pendingRemoteDescription := some ⟨.offer, some "v=0"⟩
        remoteCandidates := [] } .localSide ⟨.rollback, none⟩ = .ok s' ∧
      s'.signalingState = .stable ∧
      s'.pendingRemoteDescription = none ∧
      s'.pendingLocalDescription = none ∧
      s'.currentLocalDescription = none ∧
      s'.currentRemoteDescription = none :=
  C6_rollback_to_stable
    { signalingState := .haveRemoteOffer
      currentLocalDescription := none
      pendingLocalDescription := none
      currentRemoteDescription := none
      pendingRemoteDescription := some ⟨.offer, some "v=0"⟩
      remoteCandidates := [] } .localSide ⟨.rollback, none⟩
    rfl (by decide) (by decide)

/-- C7 counterexample: the claim "DTLS can never be connected while its ICE
transport is not connected/completed" fails as an invariant over reachable
states: after the ICE transport transiently disconnects, the pair
(ice = disconnected, dtls = connected) is reachable. -/
theorem C7_dtls_ice_counterexample :
    TransportReachable ⟨.disconnected, .connected⟩ ∧
    RTCIceConnectionState.disconnected ≠ RTCIceConnectionState.connected ∧
    RTCIceConnectionState.disconnected ≠ RTCIceConnectionState.completed := by
  refine ⟨?_, by decide, by decide⟩
  exact Relation.ReflTransGen.tail
    (Relation.ReflTransGen.tail
      (Relation.ReflTransGen.tail
        (Relation.ReflTransGen.tail
          (Relation.ReflTransGen.single TransportStep.iceCheck)
          TransportStep.iceConnect)
        TransportStep.dtlsStart)
      (TransportStep.dtlsConnect (Or.inl rfl)))
    (TransportStep.iceDisconnect (Or.inl rfl))

/-- C7 (amended): the DTLS transport cannot *reach* connected while its
underlying ICE transport is not connected/completed — every transition that
brings the DTLS state to connected (from a non-connected DTLS state) occurs
while the ICE state is connected or completed. -/
theorem C7_dtls_connect_requires_ice (p q : TransportPair)
    (hstep : TransportStep p q) (hq : q.dtls = .connected)
    (hp : p.dtls ≠ .connected) :
    p.ice = .connected ∨ p.ice = .completed := by
  cases hstep <;> simp_all

/-- Witness for C7 at the concrete DTLS connecting→connected step over a
connected ICE transport. -/
theorem C7_dtls_connect_requires_ice_witness :
    (⟨.connected, .connecting⟩ : TransportPair).ice = .connected ∨
    (⟨.connected, .connecting⟩ : TransportPair).ice = .completed :=
  C7_dtls_connect_requires_ice ⟨.connected, .connecting⟩
    ⟨.connected, .connected⟩ (TransportStep.dtlsConnect (Or.inl rfl))
    rfl (by decide)

/-- C8: every gathering-state transition advances the state monotonically
(new → gathering → complete), except that an add-candidate-source event in
complete regresses to gathering; and that regression does occur: adding a
candidate source (e.g. a new TURN server) in complete steps to gathering. -/
theorem C8_gathering_monotone (s s' : RTCIceGatheringState)
    (ev : GatheringEvent) (h : GatheringStep s ev s') :
    (gatheringRank s ≤ gatheringRank s' ∨
      (ev = .addCandidateSource ∧ s = .complete ∧ s' = .gathering)) ∧
    GatheringStep .complete .addCandidateSource .gathering := by
  refine ⟨?_, GatheringStep.regress⟩
  cases h <;> simp [gatheringRank]

/-- Witness for C8 at the concrete new→gathering step. -/
theorem C8_gathering_monotone_witness :
    (gatheringRank .new ≤ gatheringRank .gathering ∨
      (GatheringEvent.startGathering = .addCandidateSource ∧
        RTCIceGatheringState.new = .complete ∧
        RTCIceGatheringState.gathering = .gathering)) ∧
    GatheringStep .complete .addCandidateSource .gathering :=
  C8_gathering_monotone .new .gathering .startGathering GatheringStep.start

/-- Helper: a successful description application that lands in the stable
state leaves both pending description slots empty. -/
theorem pending_cleared_when_stable {s s' : PCState} {side : Side}
    {d : RTCSessionDescription} (h : applyDescription s side d = .ok s')
    (hs : s'.signalingState = .stable) :
    s'.pendingLocalDescription = none ∧ s'.pendingRemoteDescription = none := by
  cases side <;> cases hst : s.signalingState <;> cases hd : d.type <;>
    simp [applyDescription, setLocalDescription, setRemoteDescription,
      rollbackState, hst, hd] at h <;> subst h <;> simp_all

/-- C9: in every reachable state with signaling state stable, both pending
description slots are null; and in the initial state the current slots are
null as well, so `localDescription` and `remoteDescription` both return
null. -/
theorem C9_stable_pending_null :
    (∀ s, Reachable s → s.signalingState = .stable →
      s.pendingLocalDescription = none ∧ s.pendingRemoteDescription = none) ∧
    initialState.currentLocalDescription = none ∧
    initialState.currentRemoteDescription = none ∧
    localDescription initialState = none ∧
    remoteDescription initialState = none := by
  refine ⟨?_, rfl, rfl, rfl, rfl⟩
  intro s hr
  induction hr with
  | init => intro _; exact ⟨rfl, rfl⟩
  | applyDesc _ hok _ => intro hs; exact pending_cleared_when_stable hok hs
  | addCand hr hok ih =>
      rename_i s₀ s₁ c
      intro hs
      unfold addIceCandidate at hok
      by_cases hc : s₀.signalingState = .closed
      · simp [hc] at hok
      · simp [hc] at hok
        subst hok
        exact ih hs
  | closeStep hr ih =>
      rename_i s₀
      intro hs
      unfold close at hs
      by_cases hc : s₀.signalingState = .closed <;> simp [hc] at hs

/-- Witness for C9 at the initial state. -/
theorem C9_stable_pending_null_witness :
    (initialState.pendingLocalDescription = none ∧
      initialState.pendingRemoteDescription = none) ∧
    initialState.currentLocalDescription = none ∧
    initialState.currentRemoteDescription = none ∧
    localDescription initialState = none ∧
    remoteDescription initialState = none :=
  ⟨C9_stable_pending_null.1 initialState Reachable.init rfl,
   C9_stable_pending_null.2⟩

/-- C10: `addIceCandidate` reads only the candidate, sdpMid and
sdpMLineIndex members of its argument — two candidates agreeing on those
three members produce identical results in every state. -/
theorem C10_addIceCandidate_uses_three_members (s : PCState)
    (c1 c2 : RTCIceCandidate) (h1 : c1.candidate = c2.candidate)
    (h2 : c1.sdpMid = c2.sdpMid) (h3 : c1.sdpMLineIndex = c2.sdpMLineIndex) :
    addIceCandidate s c1 = addIceCandidate s c2 := by
  unfold addIceCandidate
  rw [h1, h2, h3]

/-- Witness for C10: two candidates equal on the three used members but
different in every other member give the same result. -/
theorem C10_addIceCandidate_uses_three_members_witness :
    addIceCandidate initialState
      ⟨"candidate:0 1 UDP", some "audio", some 0, some "f1", some 1,
        some "192.0.2.1", some .udp, some 1000, some .host, none, none,
        none⟩ =
    addIceCandidate initialState
      ⟨"candidate:0 1 UDP", some "audio", some 0, some "f2", some 99,
        some "198.51.100.7", some .tcp, some 2000, some .relay,
        some .active, some "203.0.113.5", some 443⟩ :=
  C10_addIceCandidate_uses_three_members initialState _ _ rfl rfl rfl

end WebRTC
